import Mathlib

/-!
Verification development for the drag-and-drop engine type layer
(src/src/types.ts) and the sort/transfer/registration behaviour described
in its specification.

The repository source under scrutiny is a declarations-only TypeScript
module.  Each interface is embedded as an explicit field table: a list of
`Field` values carrying the field name, whether the field is optional
(declared with `?`), and the TypeScript type transcribed verbatim.
Behavioural components whose code is not part of the module (sort commit,
transfer validation, registration) are modelled from the specification and
marked as such in their doc comments.
-/

namespace DragAndDropTypes

/-- A single property of a TypeScript interface: its name, whether it is
declared optional (with `?`), and its type transcribed as a string. -/
structure Field where
  name : String
  optional : Bool
  ty : String
deriving DecidableEq, Repr

/-- Transcribed from src/src/types.ts, interface ParentConfig
(lines 26-163), in source order.  The interface additionally carries an
index signature `[key: string]: any`, recorded separately below. -/
def parentConfigFields : List Field := [
  ⟨"accepts", true,
    "(targetParentData: ParentRecord, initialParentData: ParentRecord, lastParentData: ParentRecord, state: DragState | TouchState) => boolean"⟩,
  ⟨"disabled", true, "boolean"⟩,
  ⟨"dragHandle", true, "string"⟩,
  ⟨"draggable", true, "(child: HTMLElement) => boolean"⟩,
  ⟨"draggingClass", true, "string"⟩,
  ⟨"dropZoneClass", true, "string"⟩,
  ⟨"dropZone", true, "boolean"⟩,
  ⟨"group", true, "string"⟩,
  ⟨"handleEnd", false, "(data: NodeDragEventData | NodeTouchEventData) => void"⟩,
  ⟨"handleDragstart", false, "(data: NodeDragEventData) => void"⟩,
  ⟨"handleTouchstart", false, "(data: NodeTouchEventData) => void"⟩,
  ⟨"handleDragoverParent", false, "(data: ParentDragEventData) => void"⟩,
  ⟨"handleDragoverNode", false, "(data: NodeDragEventData) => void"⟩,
  ⟨"handleTouchmove", false, "(data: NodeTouchEventData) => void"⟩,
  ⟨"handleTouchOverNode", false, "(data: TouchOverNodeEvent) => void"⟩,
  ⟨"handleTouchOverParent", false, "(e: TouchOverParentEvent) => void"⟩,
  ⟨"longTouch", true, "boolean"⟩,
  ⟨"longTouchClass", true, "string"⟩,
  ⟨"longTouchTimeout", true, "number"⟩,
  ⟨"name", true, "string"⟩,
  ⟨"performSort", false,
    "(state: DragState | TouchState, data: NodeDragEventData | NodeTouchEventData) => void"⟩,
  ⟨"performTransfer", false,
    "(state: DragState | TouchState, data: NodeEventData | ParentEventData) => void"⟩,
  ⟨"plugins", true, "Array<DNDPlugin>"⟩,
  ⟨"root", false, "Document | ShadowRoot"⟩,
  ⟨"setupNode", false, "SetupNode"⟩,
  ⟨"sortable", true, "boolean"⟩,
  ⟨"tearDownNode", false, "TearDownNode"⟩,
  ⟨"threshold", false, "\x7b horizontal: number; vertical: number \x7d"⟩,
  ⟨"touchDraggingClass", true, "string"⟩,
  ⟨"touchDropZoneClass", true, "string"⟩]

/-- ParentConfig (line 27) declares an open index signature
`[key: string]: any` in addition to its named fields. -/
def parentConfigHasIndexSignature : Bool := true

/-- Transcribed from src/src/types.ts, interface ParentData
(lines 168-189). -/
def parentDataFields : List Field := [
  ⟨"getValues", false, "(parent: HTMLElement) => Array<any>"⟩,
  ⟨"setValues", false, "(values: Array<any>, parent: HTMLElement) => void"⟩,
  ⟨"config", false, "ParentConfig"⟩,
  ⟨"enabledNodes", false, "Array<NodeRecord>"⟩,
  ⟨"abortControllers", false, "Record<string, AbortController>"⟩]

/-- Transcribed from src/src/types.ts, interface NodeData
(lines 194-212). -/
def nodeDataFields : List Field := [
  ⟨"index", false, "number"⟩,
  ⟨"value", false, "any"⟩,
  ⟨"privateClasses", false, "Array<string>"⟩,
  ⟨"abortControllers", false, "Record<string, AbortController>"⟩]

/-- Transcribed from src/src/types.ts, interface NodeRecord
(lines 288-291). -/
def nodeRecordFields : List Field := [
  ⟨"el", false, "Node"⟩,
  ⟨"data", false, "NodeData"⟩]

/-- Transcribed from src/src/types.ts, interface ParentRecord
(lines 296-299). -/
def parentRecordFields : List Field := [
  ⟨"el", false, "HTMLElement"⟩,
  ⟨"data", false, "ParentData"⟩]

/-- Transcribed from src/src/types.ts, interface SetupNodeData
(lines 419-436). -/
def setupNodeDataFields : List Field := [
  ⟨"node", false, "Node"⟩,
  ⟨"nodeData", false, "NodeData"⟩,
  ⟨"parent", false, "HTMLElement"⟩,
  ⟨"parentData", false, "ParentData"⟩]

/-- Transcribed from src/src/types.ts, interface TearDownNodeData
(lines 441-458): nodeData is declared optional there. -/
def tearDownNodeDataFields : List Field := [
  ⟨"node", false, "Node"⟩,
  ⟨"nodeData", true, "NodeData"⟩,
  ⟨"parent", false, "HTMLElement"⟩,
  ⟨"parentData", false, "ParentData"⟩]

/-- Transcribed from src/src/types.ts, interface DragState
(lines 532-592).  DragState extends DragStateProps; the four DragStateProps
members (draggedNode, draggedNodes, initialParent, lastParent) are
re-declared in the DragState body, so this list is the complete member
list of DragState. -/
def dragStateFields : List Field := [
  ⟨"activeNode", false, "NodeRecord | undefined"⟩,
  ⟨"affectedNodes", false, "Array<NodeRecord>"⟩,
  ⟨"ascendingDirection", false, "boolean"⟩,
  ⟨"clonedDraggedEls", false, "Array<Element>"⟩,
  ⟨"draggedNode", false, "NodeRecord"⟩,
  ⟨"draggedNodes", false, "Array<NodeRecord>"⟩,
  ⟨"incomingDirection", false,
    "\"above\" | \"below\" | \"left\" | \"right\" | undefined"⟩,
  ⟨"initialParent", false, "ParentRecord"⟩,
  ⟨"lastParent", false, "ParentRecord"⟩,
  ⟨"lastValue", false, "any"⟩,
  ⟨"originalZIndex", false, "string | undefined"⟩,
  ⟨"preventEnter", false, "boolean"⟩,
  ⟨"swappedNodeValue", false, "any | undefined"⟩,
  ⟨"targetIndex", false, "number"⟩]

/-- Transcribed from src/src/types.ts, interface TouchState
(lines 466-503): the members TouchState declares in its own body, beyond
those inherited from DragState. -/
def touchStateOwnFields : List Field := [
  ⟨"touchMoving", false, "boolean"⟩,
  ⟨"touchStartLeft", false, "number"⟩,
  ⟨"touchStartTop", false, "number"⟩,
  ⟨"touchedNode", false, "HTMLElement"⟩,
  ⟨"longTouchTimeout", false, "ReturnType<typeof setTimeout> | undefined"⟩,
  ⟨"scrollParent", false, "HTMLElement | undefined"⟩,
  ⟨"scrollParentOverflow", false, "string | undefined"⟩,
  ⟨"longTouch", false, "boolean"⟩,
  ⟨"touchedNodeDisplay", false, "string | undefined"⟩]

/-- TouchState extends DragState (line 466), so its full member list is the
DragState members followed by its own members. -/
def touchStateFields : List Field := dragStateFields ++ touchStateOwnFields

/-- The admissible values of the incomingDirection member of DragState,
transcribed from its union type on line 562:
the string literals above, below, left, right, and undefined
(rendered as Option.none). -/
def incomingDirectionValues : List (Option String) :=
  [Option.some "above", Option.some "below", Option.some "left",
   Option.some "right", Option.none]

/-- Looks up a field of an interface table by name. -/
def findField (fs : List Field) (n : String) : Option Field :=
  fs.find? (fun f => f.name = n)

/-- The names of the fields of an interface table. -/
def fieldNames (fs : List Field) : List String := fs.map Field.name

/-- Whether the first character list is a prefix of the second. -/
def charsPrefixOf : List Char → List Char → Bool
  | [], _ => true
  | _ :: _, [] => false
  | p :: ps, c :: cs => (p == c) && charsPrefixOf ps cs

/-- Whether the first character list occurs inside the second. -/
def charsSub (pat : List Char) : List Char → Bool
  | [] => pat.isEmpty
  | c :: cs => charsPrefixOf pat (c :: cs) || charsSub pat cs

/-- Whether pat occurs as a substring of s. -/
def containsSub (s pat : String) : Bool := charsSub pat.toList s.toList

/-- Wording of the spec, section 6: the configuration options it
enumerates for registerParent.  Compound items are expanded to the
corresponding option names: the four class names, and longTouch with its
class and timeout. -/
def specConfigOptionNames : List String := [
  "disabled", "dragHandle", "draggable",
  "draggingClass", "dropZoneClass", "touchDraggingClass",
  "touchDropZoneClass",
  "dropZone", "group",
  "longTouch", "longTouchClass", "longTouchTimeout",
  "name", "sortable", "threshold", "plugins", "accepts",
  "performSort", "performTransfer", "setupNode", "tearDownNode", "root"]

/-- Wording of the spec, section 3: the fields it lists for the drag
session, with draggedNode(s) expanded to draggedNode and draggedNodes. -/
def specSessionFieldNames : List String := [
  "draggedNode", "draggedNodes", "initialParent", "lastParent",
  "targetIndex", "incomingDirection", "ascendingDirection", "activeNode",
  "affectedNodes", "swappedNodeValue", "originalZIndex", "preventEnter",
  "clonedDraggedEls"]

/-- Wording of the spec, section 3: the data fields it lists for the
Parent record, with cancelable-operation handles rendered by the name the
code uses for them, abortControllers. -/
def specParentDataFieldNames : List String :=
  ["getValues", "setValues", "config", "enabledNodes", "abortControllers"]

/-- Wording of the spec, section 3: the data fields it lists for the Node
record, with cancelable-operation handles rendered by the name the code
uses for them, abortControllers. -/
def specNodeDataFieldNames : List String :=
  ["index", "value", "privateClasses", "abortControllers"]

/-- Wording of the spec, section 3: the members the touch session adds to
the drag session, rendered by the names the code uses — the long-press
timer handle is longTouchTimeout, the saved overflow is
scrollParentOverflow, the long-press flag is longTouch, and the saved
display style is touchedNodeDisplay. -/
def specTouchExtraFieldNames : List String := [
  "touchMoving", "touchStartLeft", "touchStartTop", "touchedNode",
  "longTouchTimeout", "scrollParent", "scrollParentOverflow", "longTouch",
  "touchedNodeDisplay"]

end DragAndDropTypes

namespace SortModel

/-- Modelled from the spec: section 4.3 names two sort policies, swap
(two-element exchange) and shift (contiguous shift of every node between
the old and the new position).  The code of the sort resolver is not part
of the types module, so the policies are modelled from the specification
wording. -/
inductive SortPolicy where
  | swap : SortPolicy
  | shift : SortPolicy
deriving DecidableEq, Repr

/-- Modelled from the spec: the target index is clamped to
the interval from 0 to length - 1 (section 4.3, edge cases). -/
def clampIndex (l : List α) (t : Nat) : Nat := min t (l.length - 1)

/-- Modelled from the spec: swap reorders by a two-element exchange of the
entries at positions i and j; out-of-range positions leave the list
unchanged. -/
def swapVals (l : List α) (i j : Nat) : List α :=
  match l.get? i, l.get? j with
  | Option.some a, Option.some b => (l.set i b).set j a
  | _, _ => l

/-- Modelled from the spec: shift removes the entry at position i and
reinserts it at position j, shifting every entry between the old and the
new position by one; out-of-range source positions leave the list
unchanged. -/
def shiftVals (l : List α) (i j : Nat) : List α :=
  match l.get? i with
  | Option.some a => (l.eraseIdx i).insertIdx j a
  | Option.none => l

/-- Modelled from the spec: one sort commit for a dragged entry at
position i moving onto raw target position t — clamp the target, treat a
self-drop as a no-op, then exchange or shift per the policy
(section 4.3, steps 4-6). -/
def sortCommit (p : SortPolicy) (l : List α) (i t : Nat) : List α :=
  if i = clampIndex l t then l
  else
    match p with
    | SortPolicy.swap => swapVals l i (clampIndex l t)
    | SortPolicy.shift => shiftVals l i (clampIndex l t)

/-- Modelled from the spec: the per-parent state a sort session touches —
the backing collection owned by the application and the ordered values of
the enabledNodes sequence (sections 3 and 4.3). -/
structure SortableParent (α : Type) where
  collection : List α
  enabledNodes : List α
deriving DecidableEq, Repr

/-- Modelled from the spec: committing a sort reorders enabledNodes in
memory and pushes the full reordered value sequence through the value-sync
setter, so the backing collection becomes that same sequence
(section 4.3, step 6). -/
def commitSort (p : SortPolicy) (s : SortableParent α) (i t : Nat) :
    SortableParent α :=
  let newOrder := sortCommit p s.enabledNodes i t
  ⟨newOrder, newOrder⟩

/-- Modelled from the spec: a drag session within one sortable parent is a
sequence of over-events, each resolving to a commit with a dragged
position and a target position. -/
def runSortSession (p : SortPolicy) (s : SortableParent α)
    (events : List (Nat × Nat)) : SortableParent α :=
  events.foldl (fun q e => commitSort p q e.1 e.2) s

end SortModel

namespace TransferModel

/-- Modelled from the spec: the configuration of a parent that matters to
transfer validation is its optional group name (section 3, Group). -/
structure XferParent where
  group : Option String
deriving DecidableEq, Repr

/-- Modelled from the spec: section 4.4 step 1 — a cross-parent transfer
is allowed when the group of the target parent equals the current group
(the group of the parent the dragged node is presently in), or when the
target supplies an accepts predicate and it, applied to the target,
initial and last parent records together with the session state, returns
true. -/
def transferAllowed (σ : Type) (target initial last : XferParent)
    (state : σ)
    (accepts : Option (XferParent → XferParent → XferParent → σ → Bool)) :
    Bool :=
  (target.group == last.group) ||
    (match accepts with
     | Option.some f => f target initial last state
     | Option.none => false)

end TransferModel

namespace RegistrationModel

open DragAndDropTypes

/-- Modelled from the spec: what a caller of registerParent supplies that
validation inspects — the names of the hooks present in the configuration
and the two threshold fractions (sections 6 and 7).  registerParent itself
is not part of the types module. -/
structure SuppliedConfig where
  suppliedHooks : List String
  thresholdHorizontal : Rat
  thresholdVertical : Rat
deriving DecidableEq, Repr

/-- The hooks a configuration must supply: the fields of ParentConfig that
are not optional, other than the root scope and the threshold record. -/
def requiredHookNames : List String :=
  (parentConfigFields.filter
    (fun f => !f.optional && f.name != "root" && f.name != "threshold")).map
    Field.name

/-- Modelled from the spec: a configuration is well formed when every
required hook is supplied and both threshold fractions lie in the closed
interval from 0 to 1 (section 7). -/
def wellFormedConfig (c : SuppliedConfig) : Bool :=
  requiredHookNames.all (fun h => c.suppliedHooks.contains h) &&
    decide ((0 : Rat) ≤ c.thresholdHorizontal) &&
    decide (c.thresholdHorizontal ≤ 1) &&
    decide ((0 : Rat) ≤ c.thresholdVertical) &&
    decide (c.thresholdVertical ≤ 1)

/-- Modelled from the spec: registration fails loudly on a malformed
configuration and succeeds only on a well-formed one (section 7). -/
def registerParent (c : SuppliedConfig) : Except String SuppliedConfig :=
  if wellFormedConfig c then Except.ok c
  else Except.error ("invalid parent configuration")

end RegistrationModel

namespace SortModel

theorem set_append_perm : ∀ (l : List α) (i : Nat) (a b : α),
    l.get? i = Option.some b → List.Perm (l.set i a ++ [b]) (l ++ [a])
  | [], _, _, _, h => by simp at h
  | x :: t, 0, a, b, h => by
    have hb : x = b := by simpa using h
    subst hb
    simp only [List.set, List.cons_append]
    exact ((List.perm_append_singleton x t).cons a).trans
      ((List.Perm.swap x a t).trans
        (((List.perm_append_singleton a t).symm).cons x))
  | x :: t, i + 1, a, b, h => by
    simp only [List.set, List.cons_append]
    exact (set_append_perm t i a b (by simpa using h)).cons x

theorem cons_eraseIdx_perm : ∀ (l : List α) (i : Nat) (b : α),
    l.get? i = Option.some b → List.Perm (b :: l.eraseIdx i) l
  | [], _, _, h => by simp at h
  | x :: t, 0, b, h => by
    have hb : x = b := by simpa using h
    subst hb
    exact List.Perm.refl (x :: t)
  | x :: t, i + 1, b, h => by
    simp only [List.eraseIdx]
    exact (List.Perm.swap x b (t.eraseIdx i)).trans
      ((cons_eraseIdx_perm t i b (by simpa using h)).cons x)

theorem swapVals_perm (l : List α) (i j : Nat) (hne : i ≠ j) :
    List.Perm (swapVals l i j) l := by
  unfold swapVals
  split
  · next a b hgi hgj =>
    have hgj2 : (l.set i b).get? j = Option.some b := by
      rw [List.get?_eq_getElem?] at hgj ⊢
      rw [List.getElem?_set_ne hne]
      exact hgj
    have h1 := set_append_perm (l.set i b) j a b hgj2
    have h2 := set_append_perm l i b a hgi
    exact (List.perm_append_right_iff [b]).mp (h1.trans h2)
  · next => exact List.Perm.refl l

theorem shiftVals_perm (l : List α) (i j : Nat) (hj : j ≤ l.length - 1) :
    List.Perm (shiftVals l i j) l := by
  unfold shiftVals
  split
  · next a hgi =>
    have hi : i < l.length := by
      rcases List.get?_eq_some.mp hgi with ⟨h, _⟩
      exact h
    have hlen : (l.eraseIdx i).length = l.length - 1 := by
      have := List.length_eraseIdx_add_one (l := l) (i := i) hi
      omega
    have h1 : List.Perm ((l.eraseIdx i).insertIdx j a) (a :: l.eraseIdx i) :=
      List.perm_insertIdx a (l.eraseIdx i) (by rw [hlen]; exact hj)
    exact h1.trans (cons_eraseIdx_perm l i a hgi)
  · next => exact List.Perm.refl l

theorem sortCommit_perm (p : SortPolicy) (l : List α) (i t : Nat) :
    List.Perm (sortCommit p l i t) l := by
  unfold sortCommit
  by_cases h : i = clampIndex l t
  · simp [h]
  · simp only [h, if_false]
    cases p with
    | swap => exact swapVals_perm l i (clampIndex l t) h
    | shift =>
      exact shiftVals_perm l i (clampIndex l t)
        (Nat.min_le_right t (l.length - 1))

theorem runSortSession_cons (p : SortPolicy) (s : SortableParent α)
    (e : Nat × Nat) (evs : List (Nat × Nat)) :
    runSortSession p s (e :: evs) =
      runSortSession p (commitSort p s e.1 e.2) evs := rfl

theorem runSortSession_enabledNodes_perm (p : SortPolicy)
    (s : SortableParent α) (evs : List (Nat × Nat)) :
    List.Perm (runSortSession p s evs).enabledNodes s.enabledNodes := by
  induction evs generalizing s with
  | nil => exact List.Perm.refl s.enabledNodes
  | cons e evs ih =>
    rw [runSortSession_cons]
    exact (ih (commitSort p s e.1 e.2)).trans
      (sortCommit_perm p s.enabledNodes e.1 e.2)

theorem runSortSession_collection_eq (p : SortPolicy)
    (s : SortableParent α) (evs : List (Nat × Nat))
    (h : s.collection = s.enabledNodes) :
    (runSortSession p s evs).collection =
      (runSortSession p s evs).enabledNodes := by
  induction evs generalizing s with
  | nil => exact h
  | cons e evs ih =>
    rw [runSortSession_cons]
    exact ih (commitSort p s e.1 e.2) rfl

end SortModel

/-- C1: for every sequence of over-events processed within a single
sortable parent during one drag session, the backing collection after the
final commit is a permutation of the collection before the session (no
value created or lost), and its order equals the order of the enabledNodes
of the parent after the final commit.  The hypothesis is the Node record
invariant at session start: the backing collection matches the
enabledNodes order. -/
theorem c1_sort_session_permutation (p : SortModel.SortPolicy) (α : Type)
    (s : SortModel.SortableParent α) (events : List (Nat × Nat))
    (h : s.collection = s.enabledNodes) :
    List.Perm (SortModel.runSortSession p s events).collection s.collection ∧
    (SortModel.runSortSession p s events).collection =
      (SortModel.runSortSession p s events).enabledNodes := by
  have hc := SortModel.runSortSession_collection_eq p s events h
  have hp := SortModel.runSortSession_enabledNodes_perm p s events
  refine ⟨?_, hc⟩
  rw [hc, ← h] at *
  exact hp.trans (by rw [h])

/-- Witness for C1 at a concrete session: four values, shift policy, two
over-events. -/
theorem c1_sort_session_permutation_witness :
    List.Perm
      (SortModel.runSortSession SortModel.SortPolicy.shift
        (SortModel.SortableParent.mk [1, 2, 3, 4] [1, 2, 3, 4])
        [(0, 3), (2, 0)]).collection
      (SortModel.SortableParent.mk [1, 2, 3, 4] [1, 2, 3, 4]).collection ∧
    (SortModel.runSortSession SortModel.SortPolicy.shift
        (SortModel.SortableParent.mk [1, 2, 3, 4] [1, 2, 3, 4])
        [(0, 3), (2, 0)]).collection =
      (SortModel.runSortSession SortModel.SortPolicy.shift
        (SortModel.SortableParent.mk [1, 2, 3, 4] [1, 2, 3, 4])
        [(0, 3), (2, 0)]).enabledNodes :=
  c1_sort_session_permutation SortModel.SortPolicy.shift Nat
    (SortModel.SortableParent.mk [1, 2, 3, 4] [1, 2, 3, 4])
    [(0, 3), (2, 0)] rfl

/-- C3 counterexample: the incomingDirection union type of DragState does
not contain a literal value named none; the no-direction case is the
undefined member of the union instead. -/
theorem c3_counterexample_none_not_a_value :
    Option.some "none" ∉ DragAndDropTypes.incomingDirectionValues ∧
    Option.none ∈ DragAndDropTypes.incomingDirectionValues := by
  decide

/-- C3 (amended): in every live drag session the incomingDirection field
takes one of the four literal values above, below, left, right, or is
undefined — the case of no direction yet is represented by undefined, not
by a fifth literal named none. -/
theorem c3_incoming_direction_domain :
    ∀ v : Option String,
      v ∈ DragAndDropTypes.incomingDirectionValues ↔
        (v = Option.none ∨ v = Option.some "above" ∨
         v = Option.some "below" ∨ v = Option.some "left" ∨
         v = Option.some "right") := by
  intro v
  simp only [DragAndDropTypes.incomingDirectionValues, List.mem_cons,
    List.mem_singleton]
  tauto

/-- C9: every drag session additionally carries a lastValue field (the
last value of the dragged node), a session datum present in DragState that
the session field list of the spec does not mention. -/
theorem c9_last_value_undocumented :
    "lastValue" ∈ DragAndDropTypes.fieldNames DragAndDropTypes.dragStateFields ∧
    "lastValue" ∉ DragAndDropTypes.specSessionFieldNames ∧
    (DragAndDropTypes.findField DragAndDropTypes.dragStateFields
      ("lastValue")).map DragAndDropTypes.Field.ty = Option.some "any" := by
  decide

/-- C10: the teardown payload declares its nodeData field optional, while
the setup payload declares nodeData required — so the per-node teardown
hook may be invoked without node data, whereas setup always receives it. -/
theorem c10_teardown_node_data_optional :
    (DragAndDropTypes.findField DragAndDropTypes.tearDownNodeDataFields
      ("nodeData")).map DragAndDropTypes.Field.optional = Option.some true ∧
    (DragAndDropTypes.findField DragAndDropTypes.setupNodeDataFields
      ("nodeData")).map DragAndDropTypes.Field.optional = Option.some false ∧
    (DragAndDropTypes.findField DragAndDropTypes.tearDownNodeDataFields
      ("nodeData")).map DragAndDropTypes.Field.ty = Option.some "NodeData" ∧
    (DragAndDropTypes.findField DragAndDropTypes.setupNodeDataFields
      ("nodeData")).map DragAndDropTypes.Field.ty = Option.some "NodeData" := by
  decide

/-- C7: the Parent record is a pair of element and data whose data holds
exactly getValues, setValues, config, the ordered enabledNodes sequence of
Node records, and the abort-controller handles; the Node record is a pair
of element and data whose data holds exactly index, value, privateClasses,
and the abort-controller handles. -/
theorem c7_record_shapes :
    DragAndDropTypes.fieldNames DragAndDropTypes.parentDataFields =
      DragAndDropTypes.specParentDataFieldNames ∧
    DragAndDropTypes.fieldNames DragAndDropTypes.nodeDataFields =
      DragAndDropTypes.specNodeDataFieldNames ∧
    DragAndDropTypes.fieldNames DragAndDropTypes.parentRecordFields =
      ["el", "data"] ∧
    DragAndDropTypes.fieldNames DragAndDropTypes.nodeRecordFields =
      ["el", "data"] ∧
    (DragAndDropTypes.findField DragAndDropTypes.parentDataFields
      ("enabledNodes")).map DragAndDropTypes.Field.ty =
      Option.some "Array<NodeRecord>" ∧
    (DragAndDropTypes.findField DragAndDropTypes.nodeDataFields
      ("index")).map DragAndDropTypes.Field.ty = Option.some "number" := by
  decide

/-- C8: the touch session state is a strict superset of the drag session
state, adding exactly the touchMoving flag, the touchStartLeft and
touchStartTop coordinates, the touchedNode, the long-press timer handle
(longTouchTimeout), the scrollParent with its saved overflow
(scrollParentOverflow), the long-press flag (longTouch), and the saved
display style of the touched node (touchedNodeDisplay). -/
theorem c8_touch_state_superset :
    (DragAndDropTypes.dragStateFields.all
      (fun f => DragAndDropTypes.touchStateFields.contains f)) = true ∧
    DragAndDropTypes.dragStateFields.length <
      DragAndDropTypes.touchStateFields.length ∧
    DragAndDropTypes.fieldNames DragAndDropTypes.touchStateOwnFields =
      DragAndDropTypes.specTouchExtraFieldNames := by
  decide

/-- C5 counterexample: ParentConfig does not enumerate exactly the options
the spec lists — it also declares the required event-handler hook
handleEnd, which the spec option list does not contain. -/
theorem c5_counterexample_extra_config_fields :
    "handleEnd" ∈ DragAndDropTypes.fieldNames DragAndDropTypes.parentConfigFields ∧
    "handleEnd" ∉ DragAndDropTypes.specConfigOptionNames := by
  decide

/-- C5 (amended): ParentConfig contains every option the spec lists, each
at the stated type, but not exactly those: beyond them it declares eight
required event-handler hooks (handleEnd, handleDragstart,
handleTouchstart, handleDragoverParent, handleDragoverNode,
handleTouchmove, handleTouchOverNode, handleTouchOverParent) and an open
string index signature. -/
theorem c5_config_enumeration :
    (DragAndDropTypes.specConfigOptionNames.all (fun n =>
      (DragAndDropTypes.findField DragAndDropTypes.parentConfigFields
        n).isSome)) = true ∧
    (DragAndDropTypes.fieldNames DragAndDropTypes.parentConfigFields).filter
        (fun n => !(DragAndDropTypes.specConfigOptionNames.contains n)) =
      ["handleEnd", "handleDragstart", "handleTouchstart",
       "handleDragoverParent", "handleDragoverNode", "handleTouchmove",
       "handleTouchOverNode", "handleTouchOverParent"] ∧
    (DragAndDropTypes.parentConfigFields.filter (fun f =>
        DragAndDropTypes.specConfigOptionNames.contains f.name)).map
        DragAndDropTypes.Field.ty =
      ["(targetParentData: ParentRecord, initialParentData: ParentRecord, lastParentData: ParentRecord, state: DragState | TouchState) => boolean",
       "boolean", "string", "(child: HTMLElement) => boolean", "string",
       "string", "boolean", "string", "boolean", "string", "number",
       "string",
       "(state: DragState | TouchState, data: NodeDragEventData | NodeTouchEventData) => void",
       "(state: DragState | TouchState, data: NodeEventData | ParentEventData) => void",
       "Array<DNDPlugin>", "Document | ShadowRoot", "SetupNode", "boolean",
       "TearDownNode", "\x7b horizontal: number; vertical: number \x7d",
       "string", "string"] ∧
    DragAndDropTypes.parentConfigHasIndexSignature = true := by
  decide

/-- C2 counterexample: no field of ParentConfig names a swap or shift
policy — no field name mentions swap or shift in any casing, and the only
boolean-typed options are disabled, dropZone, longTouch and sortable —
so no explicit swap-vs-shift configuration flag is present in the parent
configuration. -/
theorem c2_counterexample_no_swap_flag :
    (DragAndDropTypes.fieldNames DragAndDropTypes.parentConfigFields).filter
        (fun n => DragAndDropTypes.containsSub n ("swap") ||
          DragAndDropTypes.containsSub n ("Swap") ||
          DragAndDropTypes.containsSub n ("shift") ||
          DragAndDropTypes.containsSub n ("Shift")) = [] ∧
    (DragAndDropTypes.parentConfigFields.filter
        (fun f => f.ty == "boolean")).map DragAndDropTypes.Field.name =
      ["disabled", "dropZone", "longTouch", "sortable"] := by
  decide

/-- C2 (amended): ParentConfig exposes no explicit swap-vs-shift
configuration flag: no option names swap or shift, the only boolean
options are disabled, dropZone, longTouch and sortable, and the only
sort-related configuration surface is the threshold fraction record
together with the wholesale performSort strategy override — the explicit
flag the spec demands is a prescribed reimplementation change (its
section 9 design note), not a property of the source. -/
theorem c2_swap_shift_not_configurable :
    (DragAndDropTypes.parentConfigFields.filter
        (fun f => DragAndDropTypes.containsSub f.name ("swap") ||
          DragAndDropTypes.containsSub f.name ("Swap") ||
          DragAndDropTypes.containsSub f.name ("shift") ||
          DragAndDropTypes.containsSub f.name ("Shift"))) = [] ∧
    (DragAndDropTypes.parentConfigFields.filter
        (fun f => f.ty == "boolean")).map DragAndDropTypes.Field.name =
      ["disabled", "dropZone", "longTouch", "sortable"] ∧
    DragAndDropTypes.findField DragAndDropTypes.parentConfigFields
        ("threshold") =
      Option.some
        (DragAndDropTypes.Field.mk "threshold" false
          "\x7b horizontal: number; vertical: number \x7d") ∧
    (DragAndDropTypes.findField DragAndDropTypes.parentConfigFields
        ("performSort")).isSome = true := by
  decide

/-- C4: a cross-parent transfer is allowed exactly when the group of the
target parent equals the current group or a supplied accepts predicate —
invoked with the target, initial and last parent records plus the session
state — returns true; a supplied predicate returning true always
overrides a group mismatch.  The third conjunct records the declared
signature of the accepts option in ParentConfig. -/
theorem c4_transfer_validation :
    (∀ (σ : Type) (t i l : TransferModel.XferParent) (s : σ)
        (f : TransferModel.XferParent → TransferModel.XferParent →
          TransferModel.XferParent → σ → Bool),
      TransferModel.transferAllowed σ t i l s (Option.some f) =
        ((t.group == l.group) || f t i l s)) ∧
    (∀ (σ : Type) (t i l : TransferModel.XferParent) (s : σ),
      TransferModel.transferAllowed σ t i l s Option.none =
        (t.group == l.group)) ∧
    (∀ (σ : Type) (t i l : TransferModel.XferParent) (s : σ)
        (f : TransferModel.XferParent → TransferModel.XferParent →
          TransferModel.XferParent → σ → Bool),
      f t i l s = true →
        TransferModel.transferAllowed σ t i l s (Option.some f) = true) ∧
    (DragAndDropTypes.findField DragAndDropTypes.parentConfigFields
        ("accepts")).map DragAndDropTypes.Field.ty =
      Option.some
        "(targetParentData: ParentRecord, initialParentData: ParentRecord, lastParentData: ParentRecord, state: DragState | TouchState) => boolean" := by
  refine ⟨?_, ?_, ?_, by decide⟩
  · intro σ t i l s f
    rfl
  · intro σ t i l s
    simp [TransferModel.transferAllowed]
  · intro σ t i l s f hf
    simp [TransferModel.transferAllowed, hf]

/-- Witness for C4: with mismatched groups g and h, a supplied accepts
predicate returning true makes the transfer allowed. -/
theorem c4_transfer_validation_witness :
    TransferModel.transferAllowed Nat
      (TransferModel.XferParent.mk (Option.some "g"))
      (TransferModel.XferParent.mk (Option.some "h"))
      (TransferModel.XferParent.mk (Option.some "h")) 0
      (Option.some (fun _ _ _ _ => true)) = true :=
  c4_transfer_validation.2.2.1 Nat
    (TransferModel.XferParent.mk (Option.some "g"))
    (TransferModel.XferParent.mk (Option.some "h"))
    (TransferModel.XferParent.mk (Option.some "h")) 0
    (fun _ _ _ _ => true) rfl

/-- C6: registration succeeds exactly on well-formed configurations —
every required hook supplied and both threshold fractions within the
closed unit interval — and otherwise fails loudly with an error rather
than completing with degraded behavior. -/
theorem c6_registration_fails_loudly (c : RegistrationModel.SuppliedConfig) :
    (RegistrationModel.registerParent c = Except.ok c ↔
      ((∀ h ∈ RegistrationModel.requiredHookNames, h ∈ c.suppliedHooks) ∧
        0 ≤ c.thresholdHorizontal ∧ c.thresholdHorizontal ≤ 1 ∧
        0 ≤ c.thresholdVertical ∧ c.thresholdVertical ≤ 1)) ∧
    (RegistrationModel.registerParent c ≠ Except.ok c →
      RegistrationModel.registerParent c =
        Except.error ("invalid parent configuration")) := by
  have hwf : RegistrationModel.wellFormedConfig c = true ↔
      ((∀ h ∈ RegistrationModel.requiredHookNames, h ∈ c.suppliedHooks) ∧
        0 ≤ c.thresholdHorizontal ∧ c.thresholdHorizontal ≤ 1 ∧
        0 ≤ c.thresholdVertical ∧ c.thresholdVertical ≤ 1) := by
    unfold RegistrationModel.wellFormedConfig
    simp [List.all_eq_true, and_assoc]
  by_cases hw : RegistrationModel.wellFormedConfig c = true
  · constructor
    · constructor
      · intro _
        exact hwf.mp hw
      · intro _
        unfold RegistrationModel.registerParent
        rw [if_pos hw]
    · intro hne
      exact absurd (by unfold RegistrationModel.registerParent; rw [if_pos hw]) hne
  · constructor
    · constructor
      · intro hok
        exact absurd
          (by unfold RegistrationModel.registerParent at hok; rw [if_neg hw] at hok; exact hok)
          (by simp)
      · intro hrhs
        exact absurd (hwf.mpr hrhs) hw
    · intro _
      unfold RegistrationModel.registerParent
      rw [if_neg hw]

/-- Witness for C6: a configuration supplying all required hooks with
thresholds 0 and 1 registers successfully. -/
theorem c6_registration_fails_loudly_witness :
    RegistrationModel.registerParent
      (RegistrationModel.SuppliedConfig.mk
        ["handleEnd", "handleDragstart", "handleTouchstart",
         "handleDragoverParent", "handleDragoverNode", "handleTouchmove",
         "handleTouchOverNode", "handleTouchOverParent", "performSort",
         "performTransfer", "setupNode", "tearDownNode"] 0 1) =
      Except.ok
        (RegistrationModel.SuppliedConfig.mk
          ["handleEnd", "handleDragstart", "handleTouchstart",
           "handleDragoverParent", "handleDragoverNode", "handleTouchmove",
           "handleTouchOverNode", "handleTouchOverParent", "performSort",
           "performTransfer", "setupNode", "tearDownNode"] 0 1) :=
  (c6_registration_fails_loudly
      (RegistrationModel.SuppliedConfig.mk
        ["handleEnd", "handleDragstart", "handleTouchstart",
         "handleDragoverParent", "handleDragoverNode", "handleTouchmove",
         "handleTouchOverNode", "handleTouchOverParent", "performSort",
         "performTransfer", "setupNode", "tearDownNode"] 0 1)).1.mpr
    (by refine ⟨by decide, by norm_num, by norm_num, by norm_num, by norm_num⟩)
